import Mathlib

/-!
Verification of the `db_builder` bulk-loading tool of the rocksdb-robust
repository: the shape planner, the key/value generator, the compaction gate
and the bulk loader, shallowly embedded from `src/tools/db_builder.cpp`,
`src/tools/infrastructure/bulk_loader.hpp` and
`src/tools/infrastructure/data_generator.hpp`.  The repository ships only the
headers of the bulk loader and of the data generator; where a function body
is missing from the sources, its definition here is modelled from the spec
and says so in its doc comment.
-/

/-- Key domain bound, from `#define KEY_DOMAIN 1000000000` in
`data_generator.hpp`. -/
def KEY_DOMAIN : Nat := 1000000000

/-- Batch size, from `#define BATCH_SIZE 10000` in `bulk_loader.hpp`. -/
def BATCH_SIZE : Nat := 10000

/-- Minimum entry size, from `size_t minimum_entry_size = 32;` in
`parse_args` of `db_builder.cpp`. -/
def minimum_entry_size : Nat := 32

/-- C exit code `EXIT_FAILURE`. -/
def EXIT_FAILURE : Nat := 1

/-- C exit code `EXIT_SUCCESS`. -/
def EXIT_SUCCESS : Nat := 0

/-- The `build_mode` enum of `db_builder.cpp`. -/
inductive BuildMode where
  | ENTRIES : BuildMode
  | LEVELS : BuildMode
deriving DecidableEq, Repr

/-- The `environment` struct of `db_builder.cpp`, with the fields the claims
need.  `T`, `K`, `Z` are `double` in the source; they are modelled as `Nat`
since the tool uses them as counts and ratios. -/
structure Environment where
  db_path : String
  build_fill : BuildMode
  T : Nat := 2
  K : Nat := 1
  Z : Nat := 1
  B : Nat := 1048576
  E : Nat := 8192
  N : Nat := 1000000
  L : Nat := 1
  verbose : Nat := 0
  destroy_db : Bool := false
deriving DecidableEq, Repr

/-- Outcome of `parse_args`: either a parsed environment, or the process
exited (having printed the man page) with the given exit code. -/
inductive ParseOutcome where
  | ok : Environment → ParseOutcome
  | exited : Bool → Nat → ParseOutcome
deriving DecidableEq, Repr

/-- The decision logic of `parse_args` in `db_builder.cpp` (lines 91-107):
`help` is set by the `-h` flag, by a failed command-line parse, or by an
entry size below `minimum_entry_size`; if `help` is set the process prints
the man page and exits with `EXIT_FAILURE`, otherwise the environment is
returned.  The clipp grammar itself is an external library; its success and
the help flag enter as the booleans `parse_ok` and `help_flag`. -/
def parse_args (parse_ok : Bool) (help_flag : Bool) (env : Environment) : ParseOutcome :=
  let help1 := help_flag || !parse_ok
  let help2 := help1 || decide (env.E < minimum_entry_size)
  if help2 then ParseOutcome.exited true EXIT_FAILURE else ParseOutcome.ok env

/-- Engine interactions that `main` / `build_db` of `db_builder.cpp` can
perform, in the order they appear in the source. -/
inductive EngineEvent where
  | destroyDB : EngineEvent
  | openDB : EngineEvent
  | bulkLoadEntries : Nat → EngineEvent
  | closeDB : EngineEvent
deriving DecidableEq, Repr

/-- The `main` function of `db_builder.cpp` as a function from the parse
outcome and an abstract engine behaviour (`open_ok`, `load_ok`) to the
process exit code and the list of engine interactions performed:
`parse_args` runs first and exits on failure before any engine call; on
success, `DestroyDB` runs when `-d` was given, then `build_db` opens the
store, bulk-loads `env.N` entries (the source always passes `env.N`,
line 151), and closes it. -/
def main_model (parse_ok : Bool) (help_flag : Bool) (env : Environment)
    (open_ok : Bool) (load_ok : Bool) : Nat × List EngineEvent :=
  match parse_args parse_ok help_flag env with
  | ParseOutcome.exited _ code => (code, [])
  | ParseOutcome.ok env =>
    let pre := if env.destroy_db then [EngineEvent.destroyDB] else []
    if !open_ok then (EXIT_FAILURE, pre ++ [EngineEvent.openDB])
    else if !load_ok then
      (EXIT_FAILURE, pre ++ [EngineEvent.openDB, EngineEvent.bulkLoadEntries env.N])
    else
      (EXIT_SUCCESS, pre ++ [EngineEvent.openDB, EngineEvent.bulkLoadEntries env.N,
                             EngineEvent.closeDB])

/-- The number of entries `build_db` of `db_builder.cpp` asks the bulk loader
to load: line 151 always calls `bulk_load_entries(db, env.N)`, independent of
`env.build_fill` and `env.L`. -/
def build_db_entries_requested (env : Environment) : Nat := env.N

/-- The number of entries that, per the spec, LEVELS mode must load to fill
exactly `L` levels to modeled capacity: the sum of `B * T^i` for `i` in
`[0, L)`.  This definition follows the spec's words, for comparison with the
source's `build_db_entries_requested`. -/
def spec_levels_mode_entries (B T L : Nat) : Nat :=
  (List.range L).map (fun i => B * T ^ i) |>.sum

/-- A compaction task handed to the compaction-scheduling extension point
(`tmpdb::CompactionTask`), abstract to this tool. -/
structure CompactionTask where
  id : Nat
deriving DecidableEq, Repr

/-- The engine-side state the compaction callbacks could affect: the list of
compaction tasks scheduled so far. -/
structure GateState where
  scheduled : List CompactionTask
deriving DecidableEq, Repr

/-- `FluidLSMBulkLoader::ScheduleCompaction` from `bulk_loader.hpp` line 26:
the overridden body is empty, so no task is scheduled and the state is
unchanged. -/
def ScheduleCompaction (task : CompactionTask) (s : GateState) : GateState := s

/-- `FluidLSMBulkLoader::PickCompaction` from `bulk_loader.hpp` line 27: the
overridden body is `return nullptr`, i.e. the null task for every database
handle, column-family name and level. -/
def PickCompaction (db : Nat) (cf_name : String) (level : Nat) : Option CompactionTask :=
  none

/-- The steps of `build_db` in `db_builder.cpp`, in source order: options are
configured (lines 125-134), the generator and loader are created
(lines 137-138), the loader is registered as the engine's listener
(line 139, installing the compaction gate), the store is opened (line 142),
`init_open_db` runs (line 150), the entries are bulk-loaded (line 151), and
the store is closed (line 161). -/
inductive BuildStep where
  | configureOptions : BuildStep
  | createGenerator : BuildStep
  | createLoader : BuildStep
  | registerCompactionGate : BuildStep
  | openDB : BuildStep
  | initOpenDb : BuildStep
  | bulkLoadEntries : BuildStep
  | closeDB : BuildStep
deriving DecidableEq, Repr

/-- The sequence of steps `build_db` performs, from `db_builder.cpp`
lines 122-163. -/
def build_db_steps : List BuildStep :=
  [BuildStep.configureOptions, BuildStep.createGenerator, BuildStep.createLoader,
   BuildStep.registerCompactionGate, BuildStep.openDB, BuildStep.initOpenDb,
   BuildStep.bulkLoadEntries, BuildStep.closeDB]

/-- C4: the compaction gate's two overridden callbacks are strict no-ops —
`ScheduleCompaction` leaves the engine state unchanged for every task and
every state, and `PickCompaction` returns the null task for every database,
column-family name and level — and `build_db` registers the gate on the
engine strictly before the first write (the bulk-load step). -/
theorem C4_compaction_gate_noop :
    (∀ (t : CompactionTask) (s : GateState), ScheduleCompaction t s = s) ∧
    (∀ (db : Nat) (cf : String) (lvl : Nat), PickCompaction db cf lvl = none) ∧
    build_db_steps.indexOf BuildStep.registerCompactionGate <
      build_db_steps.indexOf BuildStep.bulkLoadEntries :=
  ⟨fun _ _ => rfl, fun _ _ _ => rfl, by decide⟩

/-- C5: if the requested entry size is below the 32-byte minimum, `parse_args`
exits with `EXIT_FAILURE` after printing the man page, and the process
performs no engine interaction at all — in particular no store is created at
the target path. -/
theorem C5_entry_size_below_minimum (parse_ok help_flag : Bool) (env : Environment)
    (open_ok load_ok : Bool) (h : env.E < minimum_entry_size) :
    parse_args parse_ok help_flag env = ParseOutcome.exited true EXIT_FAILURE ∧
    main_model parse_ok help_flag env open_ok load_ok = (EXIT_FAILURE, []) := by
  have hp : parse_args parse_ok help_flag env = ParseOutcome.exited true EXIT_FAILURE := by
    unfold parse_args
    simp [h]
  refine ⟨hp, ?_⟩
  unfold main_model
  rw [hp]

/-- Witness for C5 at the spec's scenario: entry size 16 (below minimum 32). -/
theorem C5_witness :
    ({ db_path := "/tmp/db", build_fill := BuildMode.ENTRIES, E := 16 } : Environment).E <
      minimum_entry_size ∧
    parse_args true false { db_path := "/tmp/db", build_fill := BuildMode.ENTRIES, E := 16 } =
      ParseOutcome.exited true EXIT_FAILURE ∧
    main_model true false { db_path := "/tmp/db", build_fill := BuildMode.ENTRIES, E := 16 }
      true true = (EXIT_FAILURE, []) := by
  refine ⟨by decide, ?_, ?_⟩
  · exact (C5_entry_size_below_minimum true false _ true true (by decide)).1
  · exact (C5_entry_size_below_minimum true false _ true true (by decide)).2

/-- C10: whenever command-line parsing fails or the help flag is given, the
process prints the man page and exits with `EXIT_FAILURE` before any engine
interaction; in particular an explicitly requested help message still ends
the process with `EXIT_FAILURE`, never `EXIT_SUCCESS`. -/
theorem C10_help_exits_failure (parse_ok help_flag : Bool) (env : Environment)
    (open_ok load_ok : Bool) (h : help_flag = true ∨ parse_ok = false) :
    parse_args parse_ok help_flag env = ParseOutcome.exited true EXIT_FAILURE ∧
    main_model parse_ok help_flag env open_ok load_ok = (EXIT_FAILURE, []) ∧
    EXIT_FAILURE ≠ EXIT_SUCCESS := by
  have hp : parse_args parse_ok help_flag env = ParseOutcome.exited true EXIT_FAILURE := by
    unfold parse_args
    rcases h with h | h <;> simp [h]
  refine ⟨hp, ?_, by decide⟩
  unfold main_model
  rw [hp]

/-- Witness for C10: an explicit `-h` on an otherwise valid command line
still exits with `EXIT_FAILURE`. -/
theorem C10_witness :
    ((true : Bool) = true ∨ (true : Bool) = false) ∧
    parse_args true true { db_path := "/tmp/db", build_fill := BuildMode.ENTRIES } =
      ParseOutcome.exited true EXIT_FAILURE ∧
    main_model true true { db_path := "/tmp/db", build_fill := BuildMode.ENTRIES } true true =
      (EXIT_FAILURE, []) ∧
    EXIT_FAILURE ≠ EXIT_SUCCESS :=
  ⟨Or.inl rfl, C10_help_exits_failure true true _ true true (Or.inl rfl)⟩

/-- C3 (counter-evidence): `build_db` ignores LEVELS mode.  At the concrete
environment selecting `build_fill = LEVELS` with `L = 2`, `T = 2`, `B = 4`
(and the default `N = 1000000`), the source's `build_db` requests a bulk load
of `N = 1000000` entries, whereas filling exactly 2 levels to modeled
capacity requires `4 * 2^0 + 4 * 2^1 = 12` entries; the two disagree, and
`build_db_entries_requested` does not depend on `build_fill` or `L` at all. -/
theorem C3_levels_mode_ignored :
    build_db_entries_requested
      { db_path := "/tmp/db", build_fill := BuildMode.LEVELS, T := 2, B := 4, L := 2 } =
      1000000 ∧
    spec_levels_mode_entries 4 2 2 = 12 ∧
    (1000000 : Nat) ≠ 12 ∧
    (∀ (env : Environment) (m : BuildMode) (l : Nat),
      build_db_entries_requested { env with build_fill := m, L := l } =
        build_db_entries_requested env) := by
  refine ⟨rfl, by decide, by decide, fun env m l => rfl⟩

/-- Modelled from the spec: the body of `RandomGenerator::generate_key`
(`data_generator.cpp` is not in the sources) renders a numeric key drawn
from `[0, KEY_DOMAIN)` as a fixed-width, zero-padded decimal string.
`padDigits w n` is the list of the `w` decimal digits of `n`, most
significant first, with leading zeros. -/
def padDigits : Nat → Nat → List Nat
  | 0, _ => []
  | w + 1, n => n / 10 ^ w :: padDigits w (n % 10 ^ w)

/-- Modelled from the spec: the rendered key as a byte string — each decimal
digit of the 9-digit zero-padded rendering becomes its ASCII byte
(`48 + digit`); 9 digits suffice for every value below
`KEY_DOMAIN = 10^9`. -/
def renderKey (k : Nat) : List Nat := (padDigits 9 k).map (fun d => 48 + d)

/-- Byte-lexicographic strict order on byte strings, the order the engine's
default comparator applies to keys. -/
def lexLt : List Nat → List Nat → Bool
  | [], [] => false
  | [], _ :: _ => true
  | _ :: _, [] => false
  | a :: as, b :: bs => decide (a < b) || (decide (a = b) && lexLt as bs)

/-- A fixed-width rendering has exactly the requested width. -/
theorem padDigits_length : ∀ (w n : Nat), (padDigits w n).length = w
  | 0, _ => rfl
  | w + 1, n => by simp [padDigits, padDigits_length w]

/-- Positional comparison: with `m1, m2 < p`, the numbers `p*h1 + m1` and
`p*h2 + m2` compare first on the high part, then on the low part. -/
theorem base_mul_add_lt_iff (p h1 m1 h2 m2 : Nat) (hm1 : m1 < p) (hm2 : m2 < p) :
    p * h1 + m1 < p * h2 + m2 ↔ h1 < h2 ∨ (h1 = h2 ∧ m1 < m2) := by
  constructor
  · intro h
    rcases Nat.lt_trichotomy h1 h2 with hlt | heq | hgt
    · exact Or.inl hlt
    · subst heq
      exact Or.inr ⟨rfl, by omega⟩
    · exfalso
      have key : p * h2 + m2 < p * h1 + m1 := by
        calc p * h2 + m2 < p * h2 + p := by omega
          _ = p * (h2 + 1) := by ring
          _ ≤ p * h1 := Nat.mul_le_mul (le_refl p) (by omega)
          _ ≤ p * h1 + m1 := Nat.le_add_right _ _
      omega
  · intro h
    rcases h with hlt | ⟨heq, hm⟩
    · calc p * h1 + m1 < p * h1 + p := by omega
        _ = p * (h1 + 1) := by ring
        _ ≤ p * h2 := Nat.mul_le_mul (le_refl p) (by omega)
        _ ≤ p * h2 + m2 := Nat.le_add_right _ _
    · subst heq
      omega

/-- Byte-lexicographic comparison of equal-width zero-padded renderings
agrees with numeric comparison. -/
theorem lexLt_padDigits : ∀ (w n1 n2 : Nat), n1 < 10 ^ w → n2 < 10 ^ w →
    (lexLt (padDigits w n1) (padDigits w n2) = true ↔ n1 < n2)
  | 0, n1, n2, h1, h2 => by
    simp only [Nat.pow_zero, Nat.lt_one_iff] at h1 h2
    subst h1; subst h2
    simp [padDigits, lexLt]
  | w + 1, n1, n2, h1, h2 => by
    have hp : 0 < (10 : Nat) ^ w := Nat.pos_pow_of_pos w (by omega)
    have hm1 : n1 % 10 ^ w < 10 ^ w := Nat.mod_lt _ hp
    have hm2 : n2 % 10 ^ w < 10 ^ w := Nat.mod_lt _ hp
    have ih := lexLt_padDigits w (n1 % 10 ^ w) (n2 % 10 ^ w) hm1 hm2
    simp only [padDigits, lexLt, Bool.or_eq_true, Bool.and_eq_true, decide_eq_true_eq]
    rw [ih]
    have key := base_mul_add_lt_iff (10 ^ w) (n1 / 10 ^ w) (n1 % 10 ^ w)
      (n2 / 10 ^ w) (n2 % 10 ^ w) hm1 hm2
    rw [Nat.div_add_mod, Nat.div_add_mod] at key
    exact key.symm

/-- Shifting every byte by a constant preserves byte-lexicographic order. -/
theorem lexLt_map_add (c : Nat) : ∀ (a b : List Nat),
    lexLt (a.map (fun d => c + d)) (b.map (fun d => c + d)) = lexLt a b
  | [], [] => rfl
  | [], _ :: _ => rfl
  | _ :: _, [] => rfl
  | x :: xs, y :: ys => by
    simp only [List.map_cons, lexLt]
    rw [lexLt_map_add c xs ys]
    congr 1
    · exact decide_eq_decide.mpr (by omega)
    · congr 1
      exact decide_eq_decide.mpr (by omega)

/-- C8: for any two numeric keys below `KEY_DOMAIN`, the fixed-width
zero-padded rendered key strings compare in byte-lexicographic order exactly
as the numbers compare. -/
theorem C8_render_preserves_order (k1 k2 : Nat)
    (h1 : k1 < KEY_DOMAIN) (h2 : k2 < KEY_DOMAIN) :
    (lexLt (renderKey k1) (renderKey k2) = true ↔ k1 < k2) := by
  have hd : KEY_DOMAIN = 10 ^ 9 := by norm_num [KEY_DOMAIN]
  rw [hd] at h1 h2
  unfold renderKey
  rw [lexLt_map_add 48]
  exact lexLt_padDigits 9 k1 k2 h1 h2

/-- Witness for C8 at the concrete keys 3 and 7. -/
theorem C8_witness :
    3 < KEY_DOMAIN ∧ 7 < KEY_DOMAIN ∧
    (lexLt (renderKey 3) (renderKey 7) = true ↔ 3 < 7) :=
  ⟨by decide, by decide,
   C8_render_preserves_order 3 7 (by decide) (by decide)⟩

/-- Modelled from the spec: the body of `FluidLSMBulkLoader::bulk_load_entries`
(`bulk_loader.cpp` is not in the sources) computes the ENTRIES-mode per-level
entry distribution — level `i` holds up to `B * T^i` entries, levels are
filled bottom-up starting at level 0, and the final, partially filled level
absorbs the remainder.  `fillFrom B T i rem` distributes `rem` remaining
entries over levels `i, i+1, ...`; the `B * T^i = 0` guard only makes the
recursion total and is unreachable for a valid shape (`B ≥ 1`, `T ≥ 1`). -/
def fillFrom (B T : Nat) (i rem : Nat) : List Nat :=
  if _h0 : rem = 0 then []
  else if _h1 : rem ≤ B * T ^ i then [rem]
  else if _h2 : B * T ^ i = 0 then [rem]
  else B * T ^ i :: fillFrom B T (i + 1) (rem - B * T ^ i)
termination_by rem
decreasing_by omega

/-- The ENTRIES-mode load plan: entry count per level, level 0 first. -/
def bulk_load_entries_plan (B T N : Nat) : List Nat := fillFrom B T 0 N

/-- The planned per-level entry counts always sum to the requested total. -/
theorem fillFrom_sum (B T : Nat) :
    ∀ (rem i : Nat), (fillFrom B T i rem).sum = rem := by
  intro rem
  induction rem using Nat.strong_induction_on with
  | _ rem ih =>
    intro i
    rw [fillFrom]
    split_ifs with h0 h1 h2
    · simp [h0]
    · simp
    · simp
    · have hrec := ih (rem - B * T ^ i) (by omega) (i + 1)
      simp [List.sum_cons, hrec]
      omega

/-- No planned level exceeds its modeled capacity `B * T^(i+j)`. -/
theorem fillFrom_le_cap (B T : Nat) (hB : 0 < B) (hT : 0 < T) :
    ∀ (rem i j : Nat) (e : Nat),
      (fillFrom B T i rem)[j]? = some e → e ≤ B * T ^ (i + j) := by
  intro rem
  induction rem using Nat.strong_induction_on with
  | _ rem ih =>
    intro i j e he
    rw [fillFrom] at he
    split_ifs at he with h0 h1 h2
    · simp at he
    · match j with
      | 0 =>
        simp at he
        subst he
        simpa using h1
      | j + 1 =>
        simp at he
    · exact absurd h2 (Nat.ne_of_gt (Nat.mul_pos hB (Nat.pos_pow_of_pos i hT)))
    · match j with
      | 0 =>
        rw [List.getElem?_cons_zero] at he
        injection he with he
        subst he
        simp
      | j + 1 =>
        rw [List.getElem?_cons_succ] at he
        have hrec := ih (rem - B * T ^ i) (by omega) (i + 1) j e he
        have harith : i + 1 + j = i + (j + 1) := by omega
        rwa [harith] at hrec

/-- Every level that is followed by another level in the plan is filled to
exactly its modeled capacity: only the final level is partial. -/
theorem fillFrom_nonfinal_full (B T : Nat) :
    ∀ (rem i j : Nat) (e e2 : Nat),
      (fillFrom B T i rem)[j]? = some e →
      (fillFrom B T i rem)[j + 1]? = some e2 → e = B * T ^ (i + j) := by
  intro rem
  induction rem using Nat.strong_induction_on with
  | _ rem ih =>
    intro i j e e2 he he2
    rw [fillFrom] at he he2
    split_ifs at he he2 with h0 h1 h2
    · simp at he
    · match j with
      | 0 => simp at he2
      | j + 1 => simp at he
    · match j with
      | 0 => simp at he2
      | j + 1 => simp at he
    · match j with
      | 0 =>
        rw [List.getElem?_cons_zero] at he
        injection he with he
        subst he
        simp
      | j + 1 =>
        rw [List.getElem?_cons_succ] at he
        rw [List.getElem?_cons_succ] at he2
        have hrec := ih (rem - B * T ^ i) (by omega) (i + 1) j e e2 he he2
        have harith : i + 1 + j = i + (j + 1) := by omega
        rwa [harith] at hrec

/-- C1: for every valid shape (`B ≥ 1`, `T > 1`) and requested total `N ≥ 1`
in ENTRIES mode, the planner's per-level entry counts sum exactly to `N`, no
level's planned count exceeds its modeled capacity `B * T^i`, and levels are
filled bottom-up with every level except the final one exactly full, the
final level absorbing the remainder. -/
theorem C1_entries_plan_correct (B T N : Nat) (hB : 0 < B) (hT : 1 < T) (hN : 0 < N) :
    (bulk_load_entries_plan B T N).sum = N ∧
    (∀ (j e : Nat), (bulk_load_entries_plan B T N)[j]? = some e → e ≤ B * T ^ j) ∧
    (∀ (j e e2 : Nat), (bulk_load_entries_plan B T N)[j]? = some e →
      (bulk_load_entries_plan B T N)[j + 1]? = some e2 → e = B * T ^ j) := by
  refine ⟨fillFrom_sum B T N 0, ?_, ?_⟩
  · intro j e he
    have h := fillFrom_le_cap B T hB (by omega) N 0 j e he
    simpa using h
  · intro j e e2 he he2
    have h := fillFrom_nonfinal_full B T N 0 j e e2 he he2
    simpa using h

/-- Witness for C1 at the spec's scenario `B = 4`, `T = 2`, `N = 12`. -/
theorem C1_witness :
    0 < 4 ∧ 1 < 2 ∧ 0 < 12 ∧
    ((bulk_load_entries_plan 4 2 12).sum = 12 ∧
     (∀ (j e : Nat), (bulk_load_entries_plan 4 2 12)[j]? = some e → e ≤ 4 * 2 ^ j) ∧
     (∀ (j e e2 : Nat), (bulk_load_entries_plan 4 2 12)[j]? = some e →
       (bulk_load_entries_plan 4 2 12)[j + 1]? = some e2 → e = 4 * 2 ^ j)) :=
  ⟨by decide, by decide, by decide,
   C1_entries_plan_correct 4 2 12 (by decide) (by decide) (by decide)⟩

/-- One level of a LoadPlan: its index, its planned run count and its planned
entry count. -/
structure LevelPlan where
  level_idx : Nat
  run_count : Nat
  num_entries : Nat
deriving DecidableEq, Repr

/-- Modelled from the spec: the number of runs needed to hold `num_entries`
entries without exceeding the per-run size bound `rb` (the body of
`FluidLSMBulkLoader::bulk_load_single_level` is not in the sources). -/
def runs_needed (num_entries rb : Nat) : Nat :=
  if rb = 0 then 1 else (num_entries + rb - 1) / rb

/-- Modelled from the spec: the planned run count of a level is the minimum
of the level's run cap — `K` for non-final levels, `Z` for the final,
largest level — and the number of runs needed to hold its entries (the body
of `FluidLSMBulkLoader::bulk_load_single_level` is not in the sources). -/
def runsForLevel (K Z : Nat) (is_last : Bool) (num_entries rb : Nat) : Nat :=
  min (if is_last then Z else K) (runs_needed num_entries rb)

/-- Modelled from the spec: the LoadPlan assembled from the per-level entry
counts, marking the final level as the largest one (the body of
`FluidLSMBulkLoader::bulk_load` is not in the sources). -/
def mkPlan (K Z rb : Nat) : Nat → List Nat → List LevelPlan
  | _, [] => []
  | i, [e] => [⟨i, runsForLevel K Z true e rb, e⟩]
  | i, e :: e2 :: rest =>
    ⟨i, runsForLevel K Z false e rb, e⟩ :: mkPlan K Z rb (i + 1) (e2 :: rest)

/-- The full ENTRIES-mode LoadPlan of a bulk-load session. -/
def bulk_load_plan (B T K Z rb N : Nat) : List LevelPlan :=
  mkPlan K Z rb 0 (fillFrom B T 0 N)

/-- A plan over a nonempty entry list is nonempty. -/
theorem mkPlan_cons_ne_nil (K Z rb : Nat) (i e : Nat) (tl : List Nat) :
    mkPlan K Z rb i (e :: tl) ≠ [] := by
  cases tl <;> simp [mkPlan]

/-- Every level of a plan respects its run cap: `K` when another level
follows it, `Z` when it is the final level. -/
theorem mkPlan_run_caps (K Z rb : Nat) :
    ∀ (entries : List Nat) (i j : Nat) (lp : LevelPlan),
      (mkPlan K Z rb i entries)[j]? = some lp →
      ((mkPlan K Z rb i entries)[j + 1]? = none → lp.run_count ≤ Z) ∧
      ((mkPlan K Z rb i entries)[j + 1]? ≠ none → lp.run_count ≤ K)
  | [], i, j, lp => by simp [mkPlan]
  | [e], i, j, lp => by
    match j with
    | 0 =>
      intro he
      rw [mkPlan] at he
      rw [List.getElem?_cons_zero] at he
      injection he with he
      subst he
      refine ⟨fun _ => ?_, fun hne => ?_⟩
      · exact Nat.min_le_left _ _
      · exact absurd (by simp [mkPlan]) hne
    | j + 1 =>
      intro he
      simp [mkPlan] at he
  | e :: e2 :: rest, i, j, lp => by
    match j with
    | 0 =>
      intro he
      rw [mkPlan] at he
      rw [List.getElem?_cons_zero] at he
      injection he with he
      subst he
      refine ⟨fun hnone => ?_, fun _ => ?_⟩
      · rw [mkPlan, List.getElem?_cons_succ] at hnone
        cases hl : mkPlan K Z rb (i + 1) (e2 :: rest) with
        | nil => exact absurd hl (mkPlan_cons_ne_nil K Z rb (i + 1) e2 rest)
        | cons a as => rw [hl] at hnone; simp at hnone
      · exact Nat.min_le_left _ _
    | j + 1 =>
      intro he
      rw [mkPlan, List.getElem?_cons_succ] at he
      have hrec := mkPlan_run_caps K Z rb (e2 :: rest) (i + 1) j lp he
      rw [mkPlan]
      rw [List.getElem?_cons_succ]
      exact hrec

/-- C2: in every LoadPlan produced by the planner, every level that is
followed by another level (i.e. every level except the last) has run count
at most `K`, and the final (largest) level has run count at most `Z`. -/
theorem C2_run_caps (B T K Z rb N : Nat) (j : Nat) (lp : LevelPlan)
    (h : (bulk_load_plan B T K Z rb N)[j]? = some lp) :
    ((bulk_load_plan B T K Z rb N)[j + 1]? = none → lp.run_count ≤ Z) ∧
    ((bulk_load_plan B T K Z rb N)[j + 1]? ≠ none → lp.run_count ≤ K) :=
  mkPlan_run_caps K Z rb (fillFrom B T 0 N) 0 j lp h

/-- The spec's scenario plan: `B = 4`, `T = 2`, `N = 12` fills level 0 with 4
entries and level 1 with 8. -/
theorem fillFrom_eval_4_2_12 : fillFrom 4 2 0 12 = [4, 8] := by
  rw [fillFrom]
  norm_num
  rw [fillFrom]
  norm_num

/-- Witness for C2 at `B = 4`, `T = 2`, `K = 3`, `Z = 1`, `rb = 100`,
`N = 12`, level 0 of the plan. -/
theorem C2_witness :
    (bulk_load_plan 4 2 3 1 100 12)[0]? = some ⟨0, 1, 4⟩ ∧
    (((bulk_load_plan 4 2 3 1 100 12)[0 + 1]? = none →
        (⟨0, 1, 4⟩ : LevelPlan).run_count ≤ 1) ∧
     ((bulk_load_plan 4 2 3 1 100 12)[0 + 1]? ≠ none →
        (⟨0, 1, 4⟩ : LevelPlan).run_count ≤ 3)) := by
  have h0 : (bulk_load_plan 4 2 3 1 100 12)[0]? = some ⟨0, 1, 4⟩ := by
    unfold bulk_load_plan
    rw [fillFrom_eval_4_2_12]
    decide
  exact ⟨h0, C2_run_caps 4 2 3 1 100 12 0 ⟨0, 1, 4⟩ h0⟩

/-- Modelled from the spec: the body of `FluidLSMBulkLoader::bulk_load` /
`bulk_load_single_run` (not in the sources) processes the planned runs in
order — levels in increasing index order, runs within a level in sequence —
ingesting each run through the engine; the engine's success or failure on
the `idx`-th ingestion is the oracle `fails idx`.  The first failure aborts
the whole session with no retry.  The result is (overall success flag, the
runs actually ingested — `(level_idx, entries)` pairs in order — and the
number of engine operations attempted). -/
def loadRuns (fails : Nat → Bool) : List (Nat × Nat) → Nat → Bool × List (Nat × Nat) × Nat
  | [], _ => (true, [], 0)
  | r :: rs, idx =>
    if fails idx then (false, [], 1)
    else
      let res := loadRuns fails rs (idx + 1)
      (res.1, r :: res.2.1, res.2.2 + 1)

/-- If the engine first fails at operation `k` (relative to start index
`idx`), the loader stops there: error status, exactly the runs before `k`
ingested, exactly `k + 1` operations attempted. -/
theorem loadRuns_abort (fails : Nat → Bool) :
    ∀ (runs : List (Nat × Nat)) (idx k : Nat),
      (∀ j, j < k → fails (idx + j) = false) →
      fails (idx + k) = true → k < runs.length →
      loadRuns fails runs idx = (false, runs.take k, k + 1)
  | [], _, k, _, _, hlen => by simp at hlen
  | r :: rs, idx, k, hpre, hk, hlen => by
    match k with
    | 0 =>
      rw [loadRuns]
      rw [Nat.add_zero] at hk
      simp [hk]
    | k + 1 =>
      have h0 : fails idx = false := by
        have := hpre 0 (by omega)
        rwa [Nat.add_zero] at this
      rw [loadRuns]
      have hrec := loadRuns_abort fails rs (idx + 1) k
        (fun j hj => by
          have := hpre (j + 1) (by omega)
          rwa [show idx + (j + 1) = idx + 1 + j by omega] at this)
        (by rwa [show idx + 1 + k = idx + (k + 1) by omega])
        (by simpa using hlen)
      simp [h0, hrec]

/-- C6: an engine error during the load aborts the session immediately with
no retry — if the engine's first failure is at run-ingestion operation `k`
of the session, the loader reports the error, the `k` runs ingested before
it (at previously completed levels) remain persisted with no rollback, and
exactly `k + 1` operations were attempted, so no further levels or runs are
tried. -/
theorem C6_abort_on_engine_error (fails : Nat → Bool) (runs : List (Nat × Nat)) (k : Nat)
    (hpre : ∀ j, j < k → fails j = false) (hk : fails k = true) (hlen : k < runs.length) :
    loadRuns fails runs 0 = (false, runs.take k, k + 1) :=
  loadRuns_abort fails runs 0 k
    (fun j hj => by simpa using hpre j hj) (by simpa using hk) hlen

/-- Witness for C6: the spec's scenario — the engine fails on the third
operation (index 2), so the two earlier runs stay and the third level-run is
the last one touched. -/
theorem C6_witness :
    (∀ j, j < 2 → (fun j => decide (j = 2)) j = false) ∧
    (fun j => decide (j = 2)) 2 = true ∧
    2 < ([((0 : Nat), (4 : Nat)), (1, 4), (1, 4)] : List (Nat × Nat)).length ∧
    loadRuns (fun j => decide (j = 2)) [(0, 4), (1, 4), (1, 4)] 0 =
      (false, [(0, 4), (1, 4)], 3) := by
  refine ⟨by decide, by decide, by decide, ?_⟩
  have h := C6_abort_on_engine_error (fun j => decide (j = 2)) [(0, 4), (1, 4), (1, 4)] 2
    (by decide) (by decide) (by decide)
  simpa using h

/-- Modelled from the spec: the seeded pseudo-random engine of
`RandomGenerator` (the `std::mt19937` construction and advancement in the
missing `data_generator.cpp`), as a pure state machine advanced on every
call. -/
def rngNext (s : Nat) : Nat :=
  (6364136223846793005 * s + 1442695040888963407) % 2 ^ 64

/-- The `RandomGenerator` of `data_generator.hpp`: a stored seed and the
pseudo-random engine state. -/
structure RandomGenerator where
  seed : Int
  state : Nat
deriving DecidableEq, Repr

/-- Modelled from the spec: `RandomGenerator::RandomGenerator(int seed)` (not
in the sources) seeds the engine deterministically from the explicit seed. -/
def mkRandomGenerator (seed : Int) : RandomGenerator :=
  ⟨seed, seed.natAbs % 2 ^ 64⟩

/-- Modelled from the spec: `RandomGenerator::generate_key` (not in the
sources) draws a number from `[0, KEY_DOMAIN)`, advances the engine state,
and returns the prefix followed by the fixed-width zero-padded rendering. -/
def generate_key (g : RandomGenerator) (key_pre : List Nat) :
    List Nat × RandomGenerator :=
  let s := rngNext g.state
  (key_pre ++ renderKey (s % KEY_DOMAIN), ⟨g.seed, s⟩)

/-- Modelled from the spec: `RandomGenerator::generate_val` (not in the
sources) returns a value of exactly `value_size` bytes — the prefix
(truncated if it is longer than the requested size) padded with
generator-determined bytes — and advances the engine state. -/
def generate_val (g : RandomGenerator) (value_size : Nat) (val_pre : List Nat) :
    List Nat × RandomGenerator :=
  let s := rngNext g.state
  (val_pre.take value_size ++
     List.replicate (value_size - val_pre.length) (s % 256), ⟨g.seed, s⟩)

/-- Modelled from the spec: `DataGenerator::generate_kv_pair` (not in the
sources) returns a key and a value whose combined length is exactly
`kv_size`, and fails when `kv_size` cannot even hold the rendered key. -/
def generate_kv_pair (g : RandomGenerator) (kv_size : Nat) :
    Option ((List Nat × List Nat) × RandomGenerator) :=
  let kres := generate_key g []
  if kv_size < kres.1.length then none
  else
    let vres := generate_val kres.2 (kv_size - kres.1.length) []
    some ((kres.1, vres.1), vres.2)

/-- A call to the key/value generator capability. -/
inductive GenCall where
  | key : List Nat → GenCall
  | val : Nat → List Nat → GenCall
  | kv : Nat → GenCall
deriving DecidableEq, Repr

/-- One generator call: the byte strings it outputs and the advanced
generator. -/
def runCall (g : RandomGenerator) : GenCall → List (List Nat) × RandomGenerator
  | GenCall.key kp =>
    let r := generate_key g kp
    ([r.1], r.2)
  | GenCall.val sz vp =>
    let r := generate_val g sz vp
    ([r.1], r.2)
  | GenCall.kv sz =>
    match generate_kv_pair g sz with
    | none => ([], g)
    | some ((k, v), g') => ([k, v], g')

/-- A sequence of generator calls: the concatenated outputs and the final
generator state. -/
def runCalls (g : RandomGenerator) : List GenCall → List (List Nat) × RandomGenerator
  | [] => ([], g)
  | c :: cs =>
    let r := runCall g c
    let rest := runCalls r.2 cs
    (r.1 ++ rest.1, rest.2)

/-- C7: two `RandomGenerator` instances constructed with the same explicit
seed produce identical output sequences on identical sequences of
`generate_key` / `generate_val` / `generate_kv_pair` calls. -/
theorem C7_seed_determinism (s : Int) (g1 g2 : RandomGenerator)
    (h1 : g1 = mkRandomGenerator s) (h2 : g2 = mkRandomGenerator s)
    (calls : List GenCall) :
    (runCalls g1 calls).1 = (runCalls g2 calls).1 := by
  subst h1
  subst h2
  rfl

/-- Witness for C7 at seed 42 and a concrete call sequence. -/
theorem C7_witness :
    mkRandomGenerator 42 = mkRandomGenerator 42 ∧
    (runCalls (mkRandomGenerator 42) [GenCall.key [], GenCall.kv 32]).1 =
      (runCalls (mkRandomGenerator 42) [GenCall.key [], GenCall.kv 32]).1 :=
  ⟨rfl, C7_seed_determinism 42 (mkRandomGenerator 42) (mkRandomGenerator 42) rfl rfl
    [GenCall.key [], GenCall.kv 32]⟩

/-- A rendered key is always 9 bytes. -/
theorem renderKey_length (k : Nat) : (renderKey k).length = 9 := by
  simp [renderKey, padDigits_length]

/-- A generated key with empty prefix is 9 bytes. -/
theorem generate_key_length (g : RandomGenerator) :
    ((generate_key g []).1).length = 9 := by
  simp [generate_key, renderKey_length]

/-- `generate_val` with empty prefix returns exactly the requested number of
bytes. -/
theorem generate_val_length (g : RandomGenerator) (sz : Nat) :
    ((generate_val g sz []).1).length = sz := by
  simp [generate_val]

/-- C9: for every `kv_size` at least the minimum entry size,
`generate_kv_pair` returns a key/value pair whose combined byte length is
exactly `kv_size`; for a size smaller than the 9-byte minimum representable
key it fails with none. -/
theorem C9_kv_pair_length (g : RandomGenerator) (k1 k2 : Nat)
    (h1 : minimum_entry_size ≤ k1) (h2 : k2 < 9) :
    (∃ kv g', generate_kv_pair g k1 = some (kv, g') ∧
       kv.1.length + kv.2.length = k1) ∧
    generate_kv_pair g k2 = none := by
  have h1' : 32 ≤ k1 := h1
  constructor
  · have hnot : ¬ (k1 < ((generate_key g []).1).length) := by
      rw [generate_key_length]
      omega
    simp only [generate_kv_pair]
    rw [if_neg hnot]
    refine ⟨_, _, rfl, ?_⟩
    rw [generate_key_length, generate_val_length]
    omega
  · have hlt : k2 < ((generate_key g []).1).length := by
      rw [generate_key_length]
      omega
    simp only [generate_kv_pair]
    rw [if_pos hlt]

/-- Witness for C9 at `kv_size = 32` (success, exact length) and
`kv_size = 5` (failure). -/
theorem C9_witness :
    minimum_entry_size ≤ 32 ∧ 5 < 9 ∧
    ((∃ kv g', generate_kv_pair (mkRandomGenerator 7) 32 = some (kv, g') ∧
        kv.1.length + kv.2.length = 32) ∧
     generate_kv_pair (mkRandomGenerator 7) 5 = none) :=
  ⟨by decide, by decide,
   C9_kv_pair_length (mkRandomGenerator 7) 32 5 (by decide) (by decide)⟩
